import Mathlib

/-!
Verification of the permetrics metric library (regression.py, clustering.py)
against its natural-language specification.

Numeric values are modelled with exact rationals (ℚ).  `np.sqrt` is modelled
by `ratSqrt`, which is exact on rationals that are squares of rationals (all
concrete evaluations in this file happen at such points); on other inputs it
is an integer-square-root approximation.  Non-finite float results (division
by zero under numpy semantics, NaN) are modelled as `Except.error`, with a
comment at each site.
-/

unseal Rat.mul Rat.add Rat.sub Rat.inv

namespace Permetrics

/-- Floor of a rational as an integer, written with `Int.fdiv` so that it
reduces inside the kernel. -/
def ratFloor (x : ℚ) : ℤ := x.num.fdiv x.den

/-- Round-half-to-even of a rational to an integer (banker's rounding, which
`np.round` implements at the mathematical level used by the spec). -/
def roundHalfEven (x : ℚ) : ℤ :=
  let n : ℤ := ratFloor x
  let r : ℚ := x - (n : ℚ)
  if r < 1/2 then n
  else if 1/2 < r then n + 1
  else if n % 2 = 0 then n else n + 1

/-- `np.round(x, d)`: round-half-to-even at `d` fractional digits. -/
def npRound (x : ℚ) (d : ℕ) : ℚ :=
  (roundHalfEven (x * (10 : ℚ) ^ d) : ℚ) / (10 : ℚ) ^ d

/-- Integer square root `⌊√n⌋`, written so that it reduces inside the
kernel: it counts the `k ≤ n` with `k * k ≤ n`. -/
def natSqrt (n : ℕ) : ℕ :=
  ((List.range (n + 1)).filter (fun k => k * k ≤ n)).length - 1

/-- `np.sqrt` modelled on rationals: exact whenever the (reduced) numerator
and denominator are perfect squares, i.e. whenever the argument is the square
of a rational; an integer-square-root approximation elsewhere.  Negative
arguments (NaN under numpy) are sent to 0. -/
def ratSqrt (q : ℚ) : ℚ :=
  (natSqrt q.num.toNat : ℚ) / (natSqrt q.den : ℚ)

/-- Count, over all index pairs `i < j` of the list, the pairs whose elements
satisfy `f`.  This is the `for idx: for jdx in range(idx+1, n)` loop shape
shared by the pairwise metrics in the source. -/
def pairCount {β : Type} (f : β → β → Bool) : List β → ℕ
  | [] => 0
  | x :: xs => (xs.filter (fun y => f x y)).length + pairCount f xs

/-- Modelled from the spec: the stable label encoder of
`permetrics/utils/data_util.py` (not under src/).  Spec 4.1: builds a
bijection from the sorted distinct label values observed to integers
`0..K-1` and applies it to the vector. -/
def labelEncode (ys : List ℤ) : List ℕ :=
  let classes := List.insertionSort (· ≤ ·) ys.dedup
  ys.map (fun y => List.indexOf y classes)

/-- Modelled from the spec: `du.format_external_clustering_data`
(`permetrics/utils/data_util.py` is not under src/).  Spec 4.1 and 7: the true
and predicted label vectors are encoded independently, each with its own
encoder; a sample-count mismatch is surfaced immediately. -/
def format_external_clustering_data (yt yp : List ℤ) :
    Except String (List ℕ × List ℕ) :=
  if yt.length = yp.length then Except.ok (labelEncode yt, labelEncode yp)
  else Except.error "Shape mismatch between y_true and y_pred."

/-- Modelled from the spec: `du.format_internal_clustering_data`
(`permetrics/utils/data_util.py` is not under src/).  Spec 4.1: encodes the
predicted label vector with a fresh encoder. -/
def format_internal_clustering_data (yp : List ℤ) : List ℕ :=
  labelEncode yp

/-- Maximum of a list (`np.max`); the default is never observed on the code
paths embedded here, which guard emptiness earlier as the source does. -/
def listMax (l : List ℚ) : ℚ := l.foldr max (l.headD 0)

/-- Minimum of a list (`np.min`); same remark as `listMax`. -/
def listMin (l : List ℚ) : ℚ := l.foldr min (l.headD 0)

/-- Modelled from the spec: `Evaluator.get_preprocessed_data`
(`permetrics/evaluator.py` is not under src/), 1-D case.  Spec 4.1
`prepare_regression`: fails on a length mismatch; `positive_only` keeps rows
where both values are strictly positive; `clean` additionally drops rows
where `y_pred` is zero.  Returns the filtered `(y_true, y_pred)` pair. -/
def get_preprocessed_data (yt yp : List ℚ) (clean positive_only : Bool) :
    Except String (List ℚ × List ℚ) :=
  if yt.length = yp.length then
    let ps0 := yt.zip yp
    let ps1 := if positive_only then ps0.filter (fun q => 0 < q.1 && 0 < q.2) else ps0
    let ps2 := if clean then ps1.filter (fun q => q.2 != 0) else ps1
    Except.ok (ps2.map Prod.fst, ps2.map Prod.snd)
  else Except.error "ShapeError: y_true and y_pred have different lengths."

/-- `RegressionMetric.mean_absolute_error`, 1-D branch (regression.py:93-95):
`np.round(np.sum(np.abs(y_pred - y_true)) / len(y_true), decimal)`.
An empty array after filtering makes `len(y_true)` zero and Python raises
ZeroDivisionError, modelled as an error. -/
def mean_absolute_error (yt yp : List ℚ) (d : ℕ) (clean positive_only : Bool) :
    Except String ℚ := do
  let tp ← get_preprocessed_data yt yp clean positive_only
  if tp.1.length = 0 then Except.error "ZeroDivisionError: division by zero"
  else Except.ok (npRound (((tp.2.zip tp.1).map (fun q => |q.1 - q.2|)).sum / (tp.1.length : ℚ)) d)

/-- `RegressionMetric.pearson_correlation_coefficient`, 1-D branch
(regression.py:403-406).  The source expression is
`np.sum((y_true - m1) * (y_pred - m2)) / (np.sqrt(np.sum((y_true - np.m1) ** 2)) * ...)`;
`np.m1` is not an attribute of numpy, so after preprocessing succeeds the
branch always raises AttributeError before producing a value. -/
def pearson_correlation_coefficient (yt yp : List ℚ) (d : ℕ)
    (clean positive_only : Bool) : Except String ℚ := do
  let _tp ← get_preprocessed_data yt yp clean positive_only
  Except.error "AttributeError: module numpy has no attribute m1"

/-- `RegressionMetric.root_mean_squared_error`, 1-D branch
(regression.py:137-139):
`np.round(np.sqrt(np.sum((y_pred - y_true) ** 2) / len(y_true)), decimal)`. -/
def root_mean_squared_error (yt yp : List ℚ) (d : ℕ) (clean positive_only : Bool) :
    Except String ℚ := do
  let tp ← get_preprocessed_data yt yp clean positive_only
  if tp.1.length = 0 then Except.error "ZeroDivisionError: division by zero"
  else Except.ok (npRound (ratSqrt (((tp.2.zip tp.1).map (fun q => (q.1 - q.2) ^ 2)).sum / (tp.1.length : ℚ))) d)

/-- `np.std` of a 1-D array (population standard deviation). -/
def listStd (l : List ℚ) : ℚ :=
  ratSqrt (((l.map (fun x => (x - l.sum / (l.length : ℚ)) ^ 2)).sum) / (l.length : ℚ))

/-- `RegressionMetric.normalized_root_mean_square_error`, 1-D branch
(regression.py:935-946).  The source first preprocesses, then computes
`rmse = self.root_mean_squared_error(y_true, y_pred, ...)` on the already
preprocessed arrays (so the RMSE it uses is the *rounded* RMSE), then divides
by the denominator selected by `model` and rounds again.  `np.log` in the
`model = 3` branch is transcendental and is taken as the parameter `log`.
Denominators that are zero yield non-finite floats under numpy; they are
modelled as errors and never reached by the theorems below. -/
def normalized_root_mean_square_error (log : ℚ → ℚ) (yt yp : List ℚ)
    (model : ℕ) (d : ℕ) (clean positive_only : Bool) : Except String ℚ := do
  let tp ← get_preprocessed_data yt yp clean positive_only
  let t := tp.1
  let p := tp.2
  let rmse ← root_mean_squared_error t p d clean positive_only
  if model = 1 then
    if p.sum / (p.length : ℚ) = 0 then Except.error "division by zero: non-finite float"
    else Except.ok (npRound (rmse / (p.sum / (p.length : ℚ))) d)
  else if model = 2 then
    if listMax t - listMin t = 0 then Except.error "division by zero: non-finite float"
    else Except.ok (npRound (rmse / (listMax t - listMin t)) d)
  else if model = 3 then
    if t.length = 0 then Except.error "ZeroDivisionError: division by zero"
    else Except.ok (npRound (ratSqrt (((p.zip t).map (fun q => (log ((q.1 + 1) / (q.2 + 1))) ^ 2)).sum / (t.length : ℚ))) d)
  else
    if listStd p = 0 then Except.error "division by zero: non-finite float"
    else Except.ok (npRound (rmse / listStd p) d)

/-- `RegressionMetric.a10_index`, 1-D branch (regression.py:873-878):
`div = y_true / y_pred; div = np.where(np.logical_and(div >= 0.9, div <= 1.1), 1, 0)`,
then the rounded mean.  (For a zero `y_pred` entry numpy produces inf or NaN,
which falls outside the interval and contributes 0, exactly as the rational
convention `x / 0 = 0` does here, so the indicator agrees.) -/
def a10_index (yt yp : List ℚ) (d : ℕ) (clean positive_only : Bool) :
    Except String ℚ := do
  let tp ← get_preprocessed_data yt yp clean positive_only
  let div := (tp.1.zip tp.2).map (fun q => q.1 / q.2)
  let ind := div.map (fun x => if 9/10 ≤ x ∧ x ≤ 11/10 then (1 : ℚ) else 0)
  if ind.length = 0 then Except.error "ZeroDivisionError: division by zero"
  else Except.ok (npRound (ind.sum / (ind.length : ℚ)) d)

/-- `RegressionMetric.a20_index`, 1-D branch (regression.py:904-909): as
`a10_index` with the interval `[0.8, 1.2]`. -/
def a20_index (yt yp : List ℚ) (d : ℕ) (clean positive_only : Bool) :
    Except String ℚ := do
  let tp ← get_preprocessed_data yt yp clean positive_only
  let div := (tp.1.zip tp.2).map (fun q => q.1 / q.2)
  let ind := div.map (fun x => if 8/10 ≤ x ∧ x ≤ 12/10 then (1 : ℚ) else 0)
  if ind.length = 0 then Except.error "ZeroDivisionError: division by zero"
  else Except.ok (npRound (ind.sum / (ind.length : ℚ)) d)

/-- Modelled from the spec: `cu.compute_confusion_matrix`
(`permetrics/utils/cluster_util.py` is not under src/), without
normalization.  Spec 4.2: for all `i < j`, increment `yy` if the pair is
co-clustered in both vectors, `yn` if in truth only, `ny` if in prediction
only, `nn` if in neither. -/
def compute_confusion_matrix (t p : List ℕ) : ℕ × ℕ × ℕ × ℕ :=
  let ps := t.zip p
  (pairCount (fun x y => x.1 == y.1 && x.2 == y.2) ps,
   pairCount (fun x y => x.1 == y.1 && x.2 != y.2) ps,
   pairCount (fun x y => x.1 != y.1 && x.2 == y.2) ps,
   pairCount (fun x y => x.1 != y.1 && x.2 != y.2) ps)

/-- Modelled from the spec: `cu.compute_confusion_matrix` with
`normalize=True`.  Spec 4.2: divide all four counts by `N*(N-1)/2` before
returning. -/
def compute_confusion_matrix_normalized (t p : List ℕ) : ℚ × ℚ × ℚ × ℚ :=
  let c := compute_confusion_matrix t p
  let total : ℚ := (t.length * (t.length - 1) / 2 : ℕ)
  ((c.1 : ℚ) / total, (c.2.1 : ℚ) / total, (c.2.2.1 : ℚ) / total, (c.2.2.2 : ℚ) / total)

/-- `ClusteringMetric.rand_score` (clustering.py:620-649): the inline pair
loop counts `a` (same cluster in both) and `b` (different in both), then
returns `np.round((a + b) / n_pairs, decimal)`.  `n_pairs` is a Python
float, so `n_pairs = 0` raises ZeroDivisionError.  The wrapper obtains its
data through `get_processed_external_data`; with both label vectors supplied
at the call site that amounts to `format_external_clustering_data`. -/
def rand_score (yt yp : List ℤ) (d : ℕ) : Except String ℚ := do
  let tp ← format_external_clustering_data yt yp
  let ps := tp.1.zip tp.2
  let a := pairCount (fun x y => x.1 == y.1 && x.2 == y.2) ps
  let b := pairCount (fun x y => x.1 != y.1 && x.2 != y.2) ps
  let n := tp.1.length
  if n * (n - 1) / 2 = 0 then Except.error "ZeroDivisionError: float division by zero"
  else Except.ok (npRound (((a + b : ℕ) : ℚ) / ((n * (n - 1) / 2 : ℕ) : ℚ)) d)

/-- `ClusteringMetric.fowlkes_mallows_score` (clustering.py:651-681): inline
pair loop counting TP, FP, FN, then `np.round(TP / np.sqrt((TP+FP)*(TP+FN)), decimal)`.
A zero denominator gives a non-finite float under numpy; modelled as an
error (the symmetry theorem is unaffected, both orders hit it together). -/
def fowlkes_mallows_score (yt yp : List ℤ) (d : ℕ) : Except String ℚ := do
  let tp ← format_external_clustering_data yt yp
  let ps := tp.1.zip tp.2
  let TP := pairCount (fun x y => x.1 == y.1 && x.2 == y.2) ps
  let FN := pairCount (fun x y => x.1 == y.1 && x.2 != y.2) ps
  let FP := pairCount (fun x y => x.1 != y.1 && x.2 == y.2) ps
  if ratSqrt (((TP + FP) * (TP + FN) : ℕ) : ℚ) = 0 then
    Except.error "division by zero: non-finite float"
  else Except.ok (npRound ((TP : ℚ) / ratSqrt (((TP + FP) * (TP + FN) : ℕ) : ℚ)) d)

/-- `ClusteringMetric.precision_score` (clustering.py:749-769):
`yy, yn, ny, nn = cu.compute_confusion_matrix(y_true, y_pred)` then
`np.round(yy / (yy + ny), decimal)`;  `yy + ny = 0` raises
ZeroDivisionError (Python integer true division). -/
def precision_score (yt yp : List ℤ) (d : ℕ) : Except String ℚ := do
  let tp ← format_external_clustering_data yt yp
  let c := compute_confusion_matrix tp.1 tp.2
  if c.1 + c.2.2.1 = 0 then Except.error "ZeroDivisionError: division by zero"
  else Except.ok (npRound ((c.1 : ℚ) / ((c.1 + c.2.2.1 : ℕ) : ℚ)) d)

/-- `ClusteringMetric.recall_score` (clustering.py:771-790): as precision
with `np.round(yy / (yy + yn), decimal)`. -/
def recall_score (yt yp : List ℤ) (d : ℕ) : Except String ℚ := do
  let tp ← format_external_clustering_data yt yp
  let c := compute_confusion_matrix tp.1 tp.2
  if c.1 + c.2.1 = 0 then Except.error "ZeroDivisionError: division by zero"
  else Except.ok (npRound ((c.1 : ℚ) / ((c.1 + c.2.1 : ℕ) : ℚ)) d)

/-- `ClusteringMetric.homogeneity_score` (clustering.py:683-702):
`cc = cu.compute_homogeneity(y_true, y_pred)` on the encoded vectors, then
rounding.  `cu.compute_homogeneity` lives in `permetrics/utils/cluster_util.py`,
which is not under src/; the spec (4.4) describes it as conditional-entropy
based.  It is kept abstract as the parameter `ch`: every theorem below holds
for an arbitrary helper, hence in particular for the real one. -/
def homogeneity_score (ch : List ℕ → List ℕ → ℚ) (yt yp : List ℤ) (d : ℕ) :
    Except String ℚ := do
  let tp ← format_external_clustering_data yt yp
  Except.ok (npRound (ch tp.1 tp.2) d)

/-- `ClusteringMetric.completeness_score` (clustering.py:704-721): identical
to `homogeneity_score` except that it calls
`cu.compute_homogeneity(y_pred, y_true)` — the same helper with the encoded
arguments swapped. -/
def completeness_score (ch : List ℕ → List ℕ → ℚ) (yt yp : List ℤ) (d : ℕ) :
    Except String ℚ := do
  let tp ← format_external_clustering_data yt yp
  Except.ok (npRound (ch tp.2 tp.1) d)

/-- `ClusteringMetric.v_measure_score` (clustering.py:723-747):
`h = compute_homogeneity(y_true, y_pred)`, `c = compute_homogeneity(y_pred, y_true)`,
result `2*h*c/(h+c)` with the `h + c == 0` case mapped to 0, then rounding. -/
def v_measure_score (ch : List ℕ → List ℕ → ℚ) (yt yp : List ℤ) (d : ℕ) :
    Except String ℚ := do
  let tp ← format_external_clustering_data yt yp
  let h := ch tp.1 tp.2
  let c := ch tp.2 tp.1
  Except.ok (npRound (if h + c = 0 then 0 else 2 * (h * c) / (h + c)) d)

/-- `ClusteringMetric.hubert_gamma_score` (clustering.py:834-862).  After
processing, `n_clusters = len(np.unique(y_pred))`; with a single predicted
cluster the source returns the literal `-1.0` when `raise_error` is false
(the `smallest_value` field of the evaluator is *not* consulted) and raises
when it is true.  Otherwise it computes the normalized confusion matrix and
`(NT*yy - (yy+yn)*(yy+ny)) / np.sqrt((yy+yn)*(yy+ny)*(nn+yn)*(nn+ny))`;
a zero denominator is a non-finite float under numpy, modelled as an error. -/
def hubert_gamma_score (yt yp : List ℤ) (d : ℕ)
    (raise_error : Bool) (smallest_value : ℚ) : Except String ℚ := do
  let tp ← format_external_clustering_data yt yp
  let n_clusters := tp.2.dedup.length
  if n_clusters = 1 then
    if raise_error then
      Except.error "The Hubert Gamma score is undefined when y_pred has only 1 cluster."
    else Except.ok (-1)
  else
    let c := compute_confusion_matrix_normalized tp.1 tp.2
    let yy := c.1
    let yn := c.2.1
    let ny := c.2.2.1
    let nn := c.2.2.2
    let NT := yy + yn + ny + nn
    if ratSqrt ((yy + yn) * (yy + ny) * (nn + yn) * (nn + ny)) = 0 then
      Except.error "division by zero: non-finite float"
    else
      Except.ok (npRound ((NT * yy - (yy + yn) * (yy + ny)) /
        ratSqrt ((yy + yn) * (yy + ny) * (nn + yn) * (nn + ny))) d)

/-- `ClusteringMetric.g_plus_index` (clustering.py:556-584).  The source
allocates `distances` and `binary_vector` as zero arrays of length
`n_pairs` and, unlike `baker_hubert_gamma_index`, never populates them; the
discordant-pair loop then reads only those zeros.  The final line divides by
`n_pairs * (n_pairs - 1)`, raising ZeroDivisionError when that product is
zero (i.e. fewer than 3 samples).  Subtractions match Python because every
value that ℕ truncation could distort multiplies to the same zero. -/
def g_plus_index (X : List (List ℚ)) (yp : List ℤ) (d : ℕ) : Except String ℚ :=
  let _yenc := format_internal_clustering_data yp
  let num_samples := X.length
  let n_pairs := num_samples * (num_samples - 1) / 2
  let distances := List.replicate n_pairs (0 : ℚ)
  let binary_vector := List.replicate n_pairs (0 : ℚ)
  let num_discordant_pairs :=
    pairCount (fun x y => x.2 == 0 && y.2 == 1 && decide (y.1 < x.1))
      (distances.zip binary_vector)
  if n_pairs * (n_pairs - 1) = 0 then
    Except.error "ZeroDivisionError: division by zero"
  else
    Except.ok (npRound ((2 * num_discordant_pairs : ℕ) / ((n_pairs * (n_pairs - 1) : ℕ) : ℚ)) d)

/-- `ClusteringMetric.get_processed_external_data` (clustering.py:119-148).
`self_*` are the fields stored on the evaluator instance, `arg_*` the
call-site arguments.  Mirrors the nesting of the source checks exactly. -/
def get_processed_external_data (self_y_true self_y_pred : Option (List ℤ))
    (self_decimal : ℕ) (arg_y_true arg_y_pred : Option (List ℤ))
    (arg_decimal : Option ℕ) : Except String (List ℕ × List ℕ × ℕ) :=
  let dec := arg_decimal.getD self_decimal
  match arg_y_pred with
  | none =>
    match self_y_pred with
    | none => Except.error "You need to pass y_true and y_pred to calculate external clustering metrics."
    | some sp =>
      match self_y_true with
      | none => Except.error "You need to pass y_true and y_pred to calculate external clustering metrics."
      | some st => do
        let tp ← format_external_clustering_data st sp
        Except.ok (tp.1, tp.2, dec)
  | some ap =>
    match arg_y_true with
    | none => Except.error "You need to pass y_true and y_pred to calculate external clustering metrics."
    | some a_t => do
      let tp ← format_external_clustering_data a_t ap
      Except.ok (tp.1, tp.2, dec)

/-- `ClusteringMetric.get_processed_internal_data` (clustering.py:150-169).
(The message of the source really says "external"; the claim only requires a
ValueError.) -/
def get_processed_internal_data (self_y_pred : Option (List ℤ))
    (self_decimal : ℕ) (arg_y_pred : Option (List ℤ)) (arg_decimal : Option ℕ) :
    Except String (List ℕ × ℕ) :=
  let dec := arg_decimal.getD self_decimal
  match arg_y_pred with
  | none =>
    match self_y_pred with
    | none => Except.error "You need to pass y_pred to calculate external clustering metrics."
    | some sp => Except.ok (format_internal_clustering_data sp, dec)
  | some ap => Except.ok (format_internal_clustering_data ap, dec)

/-- `RegressionMetric.get_metrics_by_list_names` (regression.py:1090-1114).
The metric dispatch `getattr(self, metric_name)` followed by the call is
abstracted as `evalMetric` (applied to `none` when no parameter dictionary
is used).  The source checks `len(list_metric_names) != len(list_paras)`
inside the loop, so the check fires on the first iteration — i.e. only when
the name list is non-empty — and `exit(0)` (modelled as an error) prevents
any mapping from being returned. -/
def get_metrics_by_list_names {P V : Type} (evalMetric : String → Option P → V)
    (list_metric_names : List String) (list_paras : Option (List (Option P))) :
    Except String (List (String × V)) :=
  match list_paras with
  | none => Except.ok (list_metric_names.map (fun nm => (nm, evalMetric nm none)))
  | some ps =>
    if list_metric_names.isEmpty then Except.ok []
    else if list_metric_names.length ≠ ps.length then
      Except.error "Permetrics Error! Different length between list of functions and list of parameters."
    else Except.ok ((list_metric_names.zip ps).map (fun q => (q.1, evalMetric q.1 q.2)))

/-- Definition following claim C4's words: the fraction of samples whose
ratio `pred/true` lies in `[lo, hi]`. -/
def ratio_fraction_pred_true (yt yp : List ℚ) (lo hi : ℚ) : ℚ :=
  (((yt.zip yp).filter (fun q => lo ≤ q.2 / q.1 && q.2 / q.1 ≤ hi)).length : ℚ) / (yt.length : ℚ)

/-- The amended ratio for C4: the fraction of samples whose ratio
`true/pred` lies in `[lo, hi]` (what the source actually computes). -/
def ratio_fraction_true_pred (yt yp : List ℚ) (lo hi : ℚ) : ℚ :=
  (((yt.zip yp).filter (fun q => lo ≤ q.1 / q.2 && q.1 / q.2 ≤ hi)).length : ℚ) / (yt.length : ℚ)

/-- Definition following claim C5's words for NRMSE with `model = 2`: the
formula computed from the *unrounded* RMSE, with round-half-to-even applied
exactly once as the final step. -/
def nrmse_final_rounding_only (yt yp : List ℚ) (d : ℕ) : ℚ :=
  npRound ((ratSqrt (((yp.zip yt).map (fun q => (q.1 - q.2) ^ 2)).sum / (yt.length : ℚ))) /
    (listMax yt - listMin yt)) d

section Lemmas

theorem npRound_zero (d : ℕ) : npRound 0 d = 0 := by
  have h : (0 : ℚ) * (10 : ℚ) ^ d = 0 := by ring
  have h2 : roundHalfEven 0 = 0 := by rfl
  simp [npRound, h, h2]

theorem pairCount_congr {β : Type} {f g : β → β → Bool} :
    ∀ (l : List β), (∀ x ∈ l, ∀ y ∈ l, f x y = g x y) →
      pairCount f l = pairCount g l := by
  intro l
  induction l with
  | nil => intro _; rfl
  | cons x xs ih =>
    intro h
    simp only [pairCount]
    rw [List.filter_congr (fun y hy => h x (by simp) y (by simp [hy])),
      ih (fun a ha b hb => h a (by simp [ha]) b (by simp [hb]))]

theorem pairCount_map {α β : Type} (g : α → β) (f : β → β → Bool) :
    ∀ (l : List α), pairCount f (l.map g) = pairCount (fun x y => f (g x) (g y)) l := by
  intro l
  induction l with
  | nil => rfl
  | cons x xs ih =>
    simp only [List.map_cons, pairCount, ih, List.filter_map, List.length_map]
    rfl

theorem pairCount_eq_zero {β : Type} (f : β → β → Bool) :
    ∀ (l : List β), (∀ x ∈ l, ∀ y ∈ l, f x y = false) → pairCount f l = 0 := by
  intro l
  induction l with
  | nil => intro _; rfl
  | cons x xs ih =>
    intro h
    simp only [pairCount]
    rw [List.filter_congr (fun y hy => h x (by simp) y (by simp [hy]))]
    simp [ih (fun a ha b hb => h a (by simp [ha]) b (by simp [hb]))]

theorem length_filter_four {β : Type} (f1 f2 f3 f4 : β → Bool)
    (h : ∀ y, (f1 y).toNat + (f2 y).toNat + (f3 y).toNat + (f4 y).toNat = 1) :
    ∀ (l : List β),
      (l.filter f1).length + (l.filter f2).length +
      (l.filter f3).length + (l.filter f4).length = l.length := by
  intro l
  induction l with
  | nil => rfl
  | cons x xs ih =>
    have hx := h x
    simp only [List.filter_cons, List.length_cons]
    cases hf1 : f1 x <;> cases hf2 : f2 x <;> cases hf3 : f3 x <;> cases hf4 : f4 x <;>
      simp [hf1, hf2, hf3, hf4] at hx ⊢ <;> omega

theorem pairCount_four {β : Type} (f1 f2 f3 f4 : β → β → Bool)
    (h : ∀ x y, (f1 x y).toNat + (f2 x y).toNat + (f3 x y).toNat + (f4 x y).toNat = 1) :
    ∀ (l : List β),
      pairCount f1 l + pairCount f2 l + pairCount f3 l + pairCount f4 l =
        l.length.choose 2 := by
  intro l
  induction l with
  | nil => rfl
  | cons x xs ih =>
    simp only [pairCount, List.length_cons]
    have hfil := length_filter_four (fun y => f1 x y) (fun y => f2 x y)
      (fun y => f3 x y) (fun y => f4 x y) (fun y => h x y) xs
    have hch : (xs.length + 1).choose 2 = xs.length.choose 2 + xs.length := by
      rw [Nat.choose_succ_succ]
      simp [Nat.choose_one_right, Nat.add_comm]
    omega

theorem dedup_eq_singleton {α : Type} [DecidableEq α] (c : α) :
    ∀ (l : List α), l ≠ [] → (∀ x ∈ l, x = c) → l.dedup = [c] := by
  intro l
  induction l with
  | nil => intro h; exact absurd rfl h
  | cons x xs ih =>
    intro _ hall
    rcases xs with _ | ⟨y, ys⟩
    · simp [List.dedup, hall x (by simp)]
    · have hx : x = c := hall x (by simp)
      have hy : y = c := hall y (by simp)
      have hrest : (y :: ys).dedup = [c] :=
        ih (by simp) (fun a ha => hall a (by simp [List.mem_cons] at ha ⊢; tauto))
      rw [List.dedup_cons_of_mem (by simp [hx, hy]), hrest]

theorem sum_indicator {α : Type} (p : α → Prop) [DecidablePred p] :
    ∀ (l : List α),
      (l.map (fun x => if p x then (1 : ℚ) else 0)).sum =
        ((l.filter (fun x => decide (p x))).length : ℚ) := by
  intro l
  induction l with
  | nil => simp
  | cons x xs ih =>
    by_cases hp : p x
    · simp [List.filter_cons, hp, ih]
      ring
    · simp [List.filter_cons, hp, ih]

theorem labelEncode_length (ys : List ℤ) : (labelEncode ys).length = ys.length := by
  simp [labelEncode]

theorem get_preprocessed_data_id (yt yp : List ℚ)
    (h : yt.length = yp.length) (hnz : ∀ x ∈ yp, x ≠ 0) :
    get_preprocessed_data yt yp true false = Except.ok (yt, yp) := by
  have hfil : (yt.zip yp).filter (fun q => q.2 != 0) = yt.zip yp := by
    rw [List.filter_eq_self]
    intro a ha
    have := (List.of_mem_zip (a := a.1) (b := a.2) (by simpa using ha)).2
    simpa using hnz a.2 this
  simp only [get_preprocessed_data, if_pos h, Bool.false_eq_true, if_false, if_true, hfil]
  rw [List.map_fst_zip yt yp (le_of_eq h), List.map_snd_zip yt yp (ge_of_eq h)]

theorem get_preprocessed_data_raw (yt yp : List ℚ) (h : yt.length = yp.length) :
    get_preprocessed_data yt yp false false = Except.ok (yt, yp) := by
  simp only [get_preprocessed_data, if_pos h, Bool.false_eq_true, if_false]
  rw [List.map_fst_zip yt yp (le_of_eq h), List.map_snd_zip yt yp (ge_of_eq h)]

theorem except_bind_ok {ε α β : Type} (a : α) (f : α → Except ε β) :
    (Except.ok a >>= f : Except ε β) = f a := rfl

theorem except_bind_err {ε α β : Type} (e : ε) (f : α → Except ε β) :
    ((Except.error e : Except ε α) >>= f) = Except.error e := rfl

end Lemmas

/-- C1: for identical 1-D arrays the error metrics are 0 as claimed (shown
here for `mean_absolute_error`), but `pearson_correlation_coefficient` (and
hence `kling_gupta_efficiency`, which calls it) does not return 1: its 1-D
branch evaluates `np.m1`, which does not exist, and raises AttributeError on
every 1-D input.  The docstring and the spec make the intent (return the
Pearson R) clear; the code is a slip. -/
theorem c1_identical_arrays_pearson_crashes :
    mean_absolute_error [1, 2, 3] [1, 2, 3] 5 false false = Except.ok 0 ∧
    pearson_correlation_coefficient [1, 2, 3] [1, 2, 3] 5 false false =
      Except.error "AttributeError: module numpy has no attribute m1" :=
  ⟨by rfl, by rfl⟩

/-- C2 counterexample: with `y_pred = [0,0,0,0]`, `raise_error = False` and
the configured `smallest_value = -1000`, `hubert_gamma_score` returns the
fixed literal `-1.0`, not the configured sentinel, refuting the claim as
stated. -/
theorem c2_counterexample :
    hubert_gamma_score [0, 1, 0, 1] [0, 0, 0, 0] 5 false (-1000) = Except.ok (-1) ∧
    (-1 : ℚ) ≠ -1000 :=
  ⟨by rfl, by norm_num⟩

/-- C2 amended: for every `y_true` of matching length and every `y_pred`
with exactly one distinct predicted cluster, `hubert_gamma_score` returns
the fixed literal `-1.0` (regardless of the configured `smallest_value`)
when `raise_error` is false, and raises an error when `raise_error` is
true. -/
theorem c2_hubert_single_cluster_amended (yt yp : List ℤ) (d : ℕ)
    (sv : ℚ) (v : ℤ) (hne : yp ≠ []) (hall : ∀ x ∈ yp, x = v)
    (hlen : yt.length = yp.length) :
    hubert_gamma_score yt yp d false sv = Except.ok (-1) ∧
    hubert_gamma_score yt yp d true sv =
      Except.error "The Hubert Gamma score is undefined when y_pred has only 1 cluster." := by
  have hfmt : format_external_clustering_data yt yp =
      Except.ok (labelEncode yt, labelEncode yp) := by
    simp [format_external_clustering_data, if_pos hlen]
  have hone : (labelEncode yp).dedup = [List.indexOf v (List.insertionSort (· ≤ ·) yp.dedup)] := by
    apply dedup_eq_singleton
    · simpa [labelEncode, List.map_eq_nil_iff] using hne
    · intro z hz
      simp only [labelEncode, List.mem_map] at hz
      obtain ⟨x, hx, rfl⟩ := hz
      rw [hall x hx]
  constructor <;>
    simp [hubert_gamma_score, hfmt, except_bind_ok, hone]

/-- Witness for `c2_hubert_single_cluster_amended` at a concrete input. -/
theorem c2_hubert_single_cluster_amended_witness :
    hubert_gamma_score [0, 1, 0, 1] [0, 0, 0, 0] 5 false (-1000) = Except.ok (-1) ∧
    hubert_gamma_score [0, 1, 0, 1] [0, 0, 0, 0] 5 true (-1000) =
      Except.error "The Hubert Gamma score is undefined when y_pred has only 1 cluster." :=
  c2_hubert_single_cluster_amended [0, 1, 0, 1] [0, 0, 0, 0] 5 (-1000) 0
    (by simp) (by simp) (by simp)

/-- C3: for every pair of (encoded) label vectors of equal length `N ≥ 2`,
the four cells of the un-normalized pair-contingency tuple sum to
`N*(N-1)/2`: every unordered pair of samples falls in exactly one cell. -/
theorem c3_contingency_invariant (a b : List ℕ) (N : ℕ)
    (ha : a.length = N) (hb : b.length = N) (hN : 2 ≤ N) :
    (compute_confusion_matrix a b).1 + (compute_confusion_matrix a b).2.1 +
    (compute_confusion_matrix a b).2.2.1 + (compute_confusion_matrix a b).2.2.2 =
      N * (N - 1) / 2 := by
  have hpart : ∀ x y : ℕ × ℕ,
      ((x.1 == y.1 && x.2 == y.2) : Bool).toNat +
      ((x.1 == y.1 && x.2 != y.2) : Bool).toNat +
      ((x.1 != y.1 && x.2 == y.2) : Bool).toNat +
      ((x.1 != y.1 && x.2 != y.2) : Bool).toNat = 1 := by
    intro x y
    cases h1 : (x.1 == y.1) <;> cases h2 : (x.2 == y.2) <;> simp [bne, h1, h2]
  have hsum := pairCount_four _ _ _ _ hpart (a.zip b)
  have hlen : (a.zip b).length = N := by
    rw [List.length_zip, ha, hb]; exact min_self N
  simpa [compute_confusion_matrix, hlen, Nat.choose_two_right] using hsum

/-- Witness for `c3_contingency_invariant` at a concrete input. -/
theorem c3_contingency_invariant_witness :
    (compute_confusion_matrix [0, 0, 1] [0, 1, 1]).1 +
    (compute_confusion_matrix [0, 0, 1] [0, 1, 1]).2.1 +
    (compute_confusion_matrix [0, 0, 1] [0, 1, 1]).2.2.1 +
    (compute_confusion_matrix [0, 0, 1] [0, 1, 1]).2.2.2 = 3 * (3 - 1) / 2 :=
  c3_contingency_invariant [0, 0, 1] [0, 1, 1] 3 (by rfl) (by rfl) (by norm_num)

/-- C4 counterexample: on `y_true = [9]`, `y_pred = [10]` the source's
`a10_index` returns 1 (it computes `y_true / y_pred = 0.9 ∈ [0.9, 1.1]`),
while the claimed fraction of samples with `pred/true ∈ [0.9, 1.1]` is 0
(`10/9 > 1.1`), refuting the claim as stated. -/
theorem c4_counterexample :
    a10_index [9] [10] 5 true false = Except.ok 1 ∧
    ratio_fraction_pred_true [9] [10] (9/10) (11/10) = 0 :=
  ⟨by rfl, by rfl⟩

/-- C4 amended: for every 1-D input (with matching lengths and, so that the
default `clean` filtering is the identity, no zero predictions),
`a10_index` returns the rounded fraction of samples whose ratio
`true/pred` lies in `[0.9, 1.1]`, and `a20_index` the rounded fraction with
`true/pred` in `[0.8, 1.2]` — the reciprocal of the ratio the claim
states. -/
theorem c4_a10_a20_amended (yt yp : List ℚ) (d : ℕ)
    (hlen : yt.length = yp.length) (hnz : ∀ x ∈ yp, x ≠ 0) (hne : yp ≠ []) :
    a10_index yt yp d true false =
      Except.ok (npRound (ratio_fraction_true_pred yt yp (9/10) (11/10)) d) ∧
    a20_index yt yp d true false =
      Except.ok (npRound (ratio_fraction_true_pred yt yp (8/10) (12/10)) d) := by
  have hpre := get_preprocessed_data_id yt yp hlen hnz
  have hzlen : (yt.zip yp).length = yt.length := by
    rw [List.length_zip, hlen]; exact min_self _
  have hlen0 : yt.length ≠ 0 := by
    rw [hlen]
    simpa [List.length_eq_zero] using hne
  have key : ∀ lo hi : ℚ,
      (((yt.zip yp).map (fun q => q.1 / q.2)).map
          (fun x => if lo ≤ x ∧ x ≤ hi then (1 : ℚ) else 0)).sum =
        (((yt.zip yp).filter (fun q => lo ≤ q.1 / q.2 && q.1 / q.2 ≤ hi)).length : ℚ) := by
    intro lo hi
    rw [sum_indicator (fun x => lo ≤ x ∧ x ≤ hi), List.filter_map, List.length_map]
    have hcongr : List.filter ((fun x => decide (lo ≤ x ∧ x ≤ hi)) ∘ fun q : ℚ × ℚ => q.1 / q.2)
        (yt.zip yp) =
        List.filter (fun q : ℚ × ℚ => lo ≤ q.1 / q.2 && q.1 / q.2 ≤ hi) (yt.zip yp) := by
      apply List.filter_congr
      intro q _
      simp [Function.comp]
    rw [hcongr]
  constructor
  · simp only [a10_index, hpre, except_bind_ok, List.length_map, hzlen, if_neg hlen0,
      key, ratio_fraction_true_pred]
  · simp only [a20_index, hpre, except_bind_ok, List.length_map, hzlen, if_neg hlen0,
      key, ratio_fraction_true_pred]

/-- Witness for `c4_a10_a20_amended` at a concrete input. -/
theorem c4_a10_a20_amended_witness :
    a10_index [9] [10] 5 true false =
      Except.ok (npRound (ratio_fraction_true_pred [9] [10] (9/10) (11/10)) 5) ∧
    a20_index [9] [10] 5 true false =
      Except.ok (npRound (ratio_fraction_true_pred [9] [10] (8/10) (12/10)) 5) :=
  c4_a10_a20_amended [9] [10] 5 (by rfl) (by norm_num) (by simp)

/-- C5 counterexample: with `y_true = [0, 0.5]`, `y_pred = [0.25, 0.75]`,
`decimal = 1` and `model = 2`, the source's NRMSE is 0.4 (it divides the
*rounded* RMSE 0.2 by the range 0.5), while the value computed with rounding
only as the final step is 0.5 (unrounded RMSE 0.25 over 0.5), refuting the
claim that the formula is computed from unrounded intermediates. -/
theorem c5_counterexample :
    normalized_root_mean_square_error (fun _ => 0) [0, 1/2] [1/4, 3/4] 2 1 true false =
      Except.ok (2/5) ∧
    nrmse_final_rounding_only [0, 1/2] [1/4, 3/4] 1 = 1/2 ∧
    (2/5 : ℚ) ≠ 1/2 :=
  ⟨by rfl, by rfl, by norm_num⟩

/-- C5 amended: round-half-to-even is not applied exactly once as the final
step: `normalized_root_mean_square_error` with `model = 2` consumes the
already-rounded RMSE — its result is the rounded quotient of the *rounded*
RMSE by the range of `y_true`, so rounding is also applied to an
intermediate quantity. -/
theorem c5_nrmse_uses_rounded_rmse_amended (log : ℚ → ℚ) (yt yp : List ℚ) (d : ℕ)
    (hlen : yt.length = yp.length) (hnz : ∀ x ∈ yp, x ≠ 0) (hne : yt ≠ [])
    (hrange : listMax yt ≠ listMin yt) :
    normalized_root_mean_square_error log yt yp 2 d true false =
      Except.ok (npRound
        ((npRound (ratSqrt (((yp.zip yt).map (fun q => (q.1 - q.2) ^ 2)).sum /
            (yt.length : ℚ))) d) / (listMax yt - listMin yt)) d) := by
  have hpre := get_preprocessed_data_id yt yp hlen hnz
  have hlen0 : yt.length ≠ 0 := by
    simpa [List.length_eq_zero] using hne
  simp only [normalized_root_mean_square_error, root_mean_squared_error, hpre,
    except_bind_ok, if_neg hlen0]
  norm_num [if_neg (sub_ne_zero.mpr hrange), except_bind_ok]

/-- Witness for `c5_nrmse_uses_rounded_rmse_amended` at a concrete input. -/
theorem c5_nrmse_uses_rounded_rmse_amended_witness :
    normalized_root_mean_square_error (fun _ => 0) [0, 1/2] [1/4, 3/4] 2 1 true false =
      Except.ok (npRound
        ((npRound (ratSqrt ((([(1:ℚ)/4, 3/4].zip [(0:ℚ), 1/2]).map
            (fun q => (q.1 - q.2) ^ 2)).sum / (([(0:ℚ), 1/2].length : ℕ) : ℚ))) 1) /
          (listMax [0, 1/2] - listMin [0, 1/2])) 1) :=
  c5_nrmse_uses_rounded_rmse_amended (fun _ => 0) [0, 1/2] [1/4, 3/4] 1
    (by rfl) (by norm_num) (by simp) (by norm_num [listMax, listMin])

/-- C6: an external clustering metric call with `y_true` or `y_pred` absent
from both the call site and the evaluator instance fails with the ValueError
message saying y_true and y_pred must be passed; an internal call with
`y_pred` absent from both fails with a ValueError; no silent defaulting. -/
theorem c6_missing_inputs_error (styt styp ayt ayp : Option (List ℤ))
    (sd : ℕ) (ad : Option ℕ) :
    (((ayt = none ∧ styt = none) ∨ (ayp = none ∧ styp = none)) →
      get_processed_external_data styt styp sd ayt ayp ad =
        Except.error "You need to pass y_true and y_pred to calculate external clustering metrics.") ∧
    (ayp = none → styp = none →
      get_processed_internal_data styp sd ayp ad =
        Except.error "You need to pass y_pred to calculate external clustering metrics.") := by
  constructor
  · rintro (⟨h1, h2⟩ | ⟨h1, h2⟩)
    · subst h1; subst h2
      rcases ayp with _ | p
      · rcases styp with _ | sp <;> simp [get_processed_external_data]
      · simp [get_processed_external_data]
    · subst h1; subst h2
      simp [get_processed_external_data]
  · intro h1 h2
    subst h1; subst h2
    rfl

/-- Witness for `c6_missing_inputs_error` at a concrete input. -/
theorem c6_missing_inputs_error_witness :
    get_processed_external_data none none 5 none none none =
      Except.error "You need to pass y_true and y_pred to calculate external clustering metrics." ∧
    get_processed_internal_data none 5 none none =
      Except.error "You need to pass y_pred to calculate external clustering metrics." :=
  ⟨(c6_missing_inputs_error none none none none 5 none).1 (Or.inl ⟨rfl, rfl⟩),
   (c6_missing_inputs_error none none none none 5 none).2 rfl rfl⟩

/-- C8 counterexample: with an empty metric-name list and a one-element
parameter list (lengths 0 and 1 differ), `get_metrics_by_list_names`
returns the empty mapping instead of failing — the length check sits inside
the loop over names, which never runs — refuting the claim as stated. -/
theorem c8_counterexample :
    get_metrics_by_list_names (fun _ _ => (0 : ℚ)) ([] : List String)
      (some [(none : Option ℕ)]) = Except.ok [] :=
  by rfl

/-- C8 amended: when the metric-name list is non-empty and a non-None
parameter list of different length is supplied, the call fails before any
result is produced; when the lengths match it returns the mapping from each
name to its metric result; with an empty name list it returns the empty
mapping regardless of the parameter list's length. -/
theorem c8_batch_length_check_amended {P V : Type}
    (evalMetric : String → Option P → V) (names : List String) (ps : List (Option P)) :
    (names ≠ [] → names.length ≠ ps.length →
      get_metrics_by_list_names evalMetric names (some ps) =
        Except.error "Permetrics Error! Different length between list of functions and list of parameters.") ∧
    (names.length = ps.length →
      get_metrics_by_list_names evalMetric names (some ps) =
        Except.ok ((names.zip ps).map (fun q => (q.1, evalMetric q.1 q.2)))) := by
  constructor
  · intro hne hdiff
    simp [get_metrics_by_list_names, List.isEmpty_iff, hne, hdiff]
  · intro heq
    rcases names with _ | ⟨nm, rest⟩
    · have : ps = [] := by simpa using heq.symm
      simp [get_metrics_by_list_names, this]
    · simp [get_metrics_by_list_names, List.isEmpty_iff, heq]

/-- Witness for `c8_batch_length_check_amended` at concrete inputs. -/
theorem c8_batch_length_check_amended_witness :
    get_metrics_by_list_names (fun _ _ => (0 : ℚ)) ["RMSE"]
      (some [(none : Option ℕ), none]) =
      Except.error "Permetrics Error! Different length between list of functions and list of parameters." ∧
    get_metrics_by_list_names (fun _ _ => (0 : ℚ)) ["RMSE"] (some [(none : Option ℕ)]) =
      Except.ok [("RMSE", 0)] :=
  ⟨(c8_batch_length_check_amended (fun _ _ => (0 : ℚ)) ["RMSE"] [none, none]).1
      (by simp) (by simp),
   by simpa using
      (c8_batch_length_check_amended (fun _ _ => (0 : ℚ)) ["RMSE"] [none]).2 rfl⟩

/-- C9 counterexample: with exactly 2 samples (`n_pairs = 1`) the final
division of `g_plus_index` divides by `n_pairs * (n_pairs - 1) = 0` and the
call raises ZeroDivisionError instead of returning 0.0, refuting the claim
for "at least 2 samples". -/
theorem c9_counterexample :
    g_plus_index [[0], [1]] [0, 1] 5 =
      Except.error "ZeroDivisionError: division by zero" :=
  by rfl

/-- C9 amended: for every feature matrix with at least 3 samples and every
y_pred, `g_plus_index` returns 0.0: the distance and within/between arrays
are allocated as zeros and never populated, so no discordant pair is ever
counted. -/
theorem c9_gplus_always_zero_amended (X : List (List ℚ)) (yp : List ℤ) (d : ℕ)
    (h3 : 3 ≤ X.length) :
    g_plus_index X yp d = Except.ok 0 := by
  unfold g_plus_index
  have hp3 : 3 ≤ X.length * (X.length - 1) / 2 := by
    rw [Nat.le_div_iff_mul_le (by norm_num)]
    have h2 : 2 ≤ X.length - 1 := by omega
    calc 3 * 2 = 6 := by norm_num
    _ ≤ X.length * (X.length - 1) := Nat.mul_le_mul h3 h2
  have hne : ¬ (X.length * (X.length - 1) / 2 * (X.length * (X.length - 1) / 2 - 1) = 0) := by
    have h4 : X.length * (X.length - 1) / 2 ≠ 0 := by omega
    have h5 : X.length * (X.length - 1) / 2 - 1 ≠ 0 := by omega
    exact Nat.mul_ne_zero h4 h5
  have hcount : pairCount
      (fun x y : ℚ × ℚ => x.2 == 0 && y.2 == 1 && decide (y.1 < x.1))
      ((List.replicate (X.length * (X.length - 1) / 2) (0 : ℚ)).zip
        (List.replicate (X.length * (X.length - 1) / 2) (0 : ℚ))) = 0 := by
    apply pairCount_eq_zero
    intro x _ y hy
    have hy2 : y.2 = 0 := by
      rcases y with ⟨y1, y2⟩
      have := (List.of_mem_zip hy).2
      exact List.eq_of_mem_replicate this
    have hfalse : (y.2 == (1 : ℚ)) = false := by
      rw [hy2]; rfl
    simp [hfalse]
  rw [if_neg hne, hcount]
  norm_num [npRound_zero]

/-- Witness for `c9_gplus_always_zero_amended` at a concrete input. -/
theorem c9_gplus_always_zero_amended_witness :
    g_plus_index [[0], [1], [2]] [0, 1, 0] 5 = Except.ok 0 :=
  c9_gplus_always_zero_amended [[0], [1], [2]] [0, 1, 0] 5 (by norm_num)

section PairSwap

/-- Counting pairs of a swapped zip equals counting the zip with the
predicate applied to swapped components. -/
theorem pairCount_zip_swap (f : ℕ × ℕ → ℕ × ℕ → Bool) (t p : List ℕ) :
    pairCount f (p.zip t) = pairCount (fun x y => f x.swap y.swap) (t.zip p) := by
  rw [← List.zip_swap t p, pairCount_map]

theorem pairCount_swap_yy (t p : List ℕ) :
    pairCount (fun x y : ℕ × ℕ => x.1 == y.1 && x.2 == y.2) (p.zip t) =
      pairCount (fun x y : ℕ × ℕ => x.1 == y.1 && x.2 == y.2) (t.zip p) := by
  rw [pairCount_zip_swap]
  exact pairCount_congr _ (fun x _ y _ => by
    simp only [Prod.fst_swap, Prod.snd_swap]
    exact Bool.and_comm _ _)

theorem pairCount_swap_nn (t p : List ℕ) :
    pairCount (fun x y : ℕ × ℕ => x.1 != y.1 && x.2 != y.2) (p.zip t) =
      pairCount (fun x y : ℕ × ℕ => x.1 != y.1 && x.2 != y.2) (t.zip p) := by
  rw [pairCount_zip_swap]
  exact pairCount_congr _ (fun x _ y _ => by
    simp only [Prod.fst_swap, Prod.snd_swap]
    exact Bool.and_comm _ _)

theorem pairCount_swap_yn (t p : List ℕ) :
    pairCount (fun x y : ℕ × ℕ => x.1 == y.1 && x.2 != y.2) (p.zip t) =
      pairCount (fun x y : ℕ × ℕ => x.1 != y.1 && x.2 == y.2) (t.zip p) := by
  rw [pairCount_zip_swap]
  exact pairCount_congr _ (fun x _ y _ => by
    simp only [Prod.fst_swap, Prod.snd_swap]
    exact Bool.and_comm _ _)

theorem pairCount_swap_ny (t p : List ℕ) :
    pairCount (fun x y : ℕ × ℕ => x.1 != y.1 && x.2 == y.2) (p.zip t) =
      pairCount (fun x y : ℕ × ℕ => x.1 == y.1 && x.2 != y.2) (t.zip p) := by
  rw [pairCount_zip_swap]
  exact pairCount_congr _ (fun x _ y _ => by
    simp only [Prod.fst_swap, Prod.snd_swap]
    exact Bool.and_comm _ _)

end PairSwap

/-- C7: the Rand score and the Fowlkes-Mallows score are symmetric under
swapping the true and predicted label vectors, and the pair-based precision
of `(a, b)` equals the pair-based recall of `(b, a)` — including the
degenerate cases, where both sides fail identically. -/
theorem c7_rand_fm_precision_recall_symmetry (a b : List ℤ) (d : ℕ) :
    rand_score a b d = rand_score b a d ∧
    fowlkes_mallows_score a b d = fowlkes_mallows_score b a d ∧
    precision_score a b d = recall_score b a d := by
  by_cases h : a.length = b.length
  · have h' : b.length = a.length := h.symm
    have hfab : format_external_clustering_data a b =
        Except.ok (labelEncode a, labelEncode b) := by
      simp [format_external_clustering_data, if_pos h]
    have hfba : format_external_clustering_data b a =
        Except.ok (labelEncode b, labelEncode a) := by
      simp [format_external_clustering_data, if_pos h']
    have hlenba : (labelEncode b).length = (labelEncode a).length := by
      rw [labelEncode_length, labelEncode_length, h']
    refine ⟨?_, ?_, ?_⟩
    · simp only [rand_score, hfab, hfba, except_bind_ok]
      rw [pairCount_swap_yy (labelEncode a) (labelEncode b),
        pairCount_swap_nn (labelEncode a) (labelEncode b), hlenba]
    · simp only [fowlkes_mallows_score, hfab, hfba, except_bind_ok]
      rw [pairCount_swap_yy (labelEncode a) (labelEncode b),
        pairCount_swap_yn (labelEncode a) (labelEncode b),
        pairCount_swap_ny (labelEncode a) (labelEncode b),
        Nat.mul_comm
          (pairCount (fun x y : ℕ × ℕ => x.1 == y.1 && x.2 == y.2)
              ((labelEncode a).zip (labelEncode b)) +
            pairCount (fun x y : ℕ × ℕ => x.1 != y.1 && x.2 == y.2)
              ((labelEncode a).zip (labelEncode b)))]
    · simp only [precision_score, recall_score, hfab, hfba, except_bind_ok,
        compute_confusion_matrix]
      rw [pairCount_swap_yy (labelEncode a) (labelEncode b),
        pairCount_swap_yn (labelEncode a) (labelEncode b)]
  · have h' : ¬ b.length = a.length := fun e => h e.symm
    simp [rand_score, fowlkes_mallows_score, precision_score, recall_score,
      format_external_clustering_data, if_neg h, if_neg h', except_bind_err]

/-- C10: `completeness_score (a, b)` equals `homogeneity_score (b, a)` —
both call the same conditional-entropy helper with swapped encoded
arguments, and the per-vector encoders are independent — and consequently
`v_measure_score` is symmetric.  `ch` is the abstract
`cu.compute_homogeneity` helper, so the statement holds whatever that
helper computes. -/
theorem c10_completeness_homogeneity_v_measure (ch : List ℕ → List ℕ → ℚ)
    (a b : List ℤ) (d : ℕ) :
    completeness_score ch a b d = homogeneity_score ch b a d ∧
    v_measure_score ch a b d = v_measure_score ch b a d := by
  by_cases h : a.length = b.length
  · have h' : b.length = a.length := h.symm
    have hfab : format_external_clustering_data a b =
        Except.ok (labelEncode a, labelEncode b) := by
      simp [format_external_clustering_data, if_pos h]
    have hfba : format_external_clustering_data b a =
        Except.ok (labelEncode b, labelEncode a) := by
      simp [format_external_clustering_data, if_pos h']
    constructor
    · simp only [completeness_score, homogeneity_score, hfab, hfba, except_bind_ok]
    · simp only [v_measure_score, hfab, hfba, except_bind_ok]
      rw [add_comm (ch (labelEncode a) (labelEncode b)),
        mul_comm (ch (labelEncode a) (labelEncode b))]
  · have h' : ¬ b.length = a.length := fun e => h e.symm
    simp [completeness_score, homogeneity_score, v_measure_score,
      format_external_clustering_data, if_neg h, if_neg h', except_bind_err]

end Permetrics
